import Mathlib

/-!
Shallow embedding of `src/server.js` (a WhatsApp webhook relay built on
Express) and proofs of the specification's testable properties.

The JSON request bodies delivered by the messaging platform are modelled by
the inductive type `Json`; a JavaScript value that may be `undefined` is
modelled as `Option Json`, with `none` playing the role of `undefined`.
Property and index access follow JavaScript semantics: access on a nullish
base (`undefined`/`null`) throws, access on any other base yields the member
or `undefined`. The webhook POST handler's `try/catch` is modelled by the
`TryResult` outcome type.
-/

/-- A JSON value, as delivered by `body-parser` for the webhook payloads.
Numbers are modelled as integers (no claim involves fractional values). -/
inductive Json where
  | null
  | bool (b : Bool)
  | num (n : Int)
  | str (s : String)
  | arr (xs : List Json)
  | obj (fields : List (String × Json))

/-- First-match lookup of a key in a JSON object's field list (well-formed
objects have no duplicate keys). -/
def jlookup : List (String × Json) → String → Option Json
  | [], _ => none
  | (k, v) :: rest, key => if k = key then some v else jlookup rest key

/-- Property access `base.key` on a JSON value that is already known not to
be nullish: an object yields the field (or `undefined` when absent), any
other value yields `undefined`. -/
def jsProp : Json → String → Option Json
  | .obj fs, k => jlookup fs k
  | _, _ => none

/-- JavaScript truthiness of a value: `undefined`, `null`, `false`, `0` and
`""` are falsy; everything else is truthy. -/
def truthy : Option Json → Bool
  | none => false
  | some .null => false
  | some (.bool b) => b
  | some (.num n) => decide (n ≠ 0)
  | some (.str s) => decide (s ≠ "")
  | some (.arr _) => true
  | some (.obj _) => true

/-- A value is nullish (`undefined` or `null`): member access on it throws
a `TypeError`. -/
def nullish : Option Json → Bool
  | none => true
  | some .null => true
  | some _ => false

/-- Whether a JSON value is the literal `null` (a `null` request body makes
`req.body.entry` throw). -/
def isNull : Json → Bool
  | .null => true
  | _ => false

/-- Optional-chaining property access `base?.key` (also used where the code
has already guarded the base to be truthy): nullish bases yield `undefined`
instead of throwing. -/
def optProp (v : Option Json) (k : String) : Option Json :=
  match v with
  | none => none
  | some .null => none
  | some j => jsProp j k

/-- Optional-chaining index access `base?.[i]`: nullish bases yield
`undefined`; arrays index their elements, strings index their characters,
objects look up the stringified index as a key. -/
def optIdx (v : Option Json) (i : Nat) : Option Json :=
  match v with
  | none => none
  | some .null => none
  | some (.arr xs) => xs.get? i
  | some (.str s) => (s.toList.get? i).map (fun c => Json.str (String.singleton c))
  | some (.obj fs) => jlookup fs (toString i)
  | some _ => none

/-- Strict equality `v === "s"` of a JavaScript value against a string
literal: true exactly when the value is that string (no coercion). -/
def isStr (v : Option Json) (s : String) : Bool :=
  match v with
  | some (.str t) => decide (t = s)
  | _ => false

/-- JavaScript `String(j)` coercion of a JSON value, as used by the template
literal at line 120 of `server.js`. -/
def jsonToStr : Json → String
  | .null => "null"
  | .bool b => cond b "true" "false"
  | .num n => toString n
  | .str s => s
  | .arr xs => jsonListToStr xs
  | .obj _ => "[object Object]"
where
  /-- `Array.prototype.toString`: elements joined by commas, with nullish
  elements rendered empty. -/
  jsonListToStr : List Json → String
  | [] => ""
  | [Json.null] => ""
  | [x] => jsonToStr x
  | Json.null :: xs => "," ++ jsonListToStr xs
  | x :: xs => jsonToStr x ++ "," ++ jsonListToStr xs

/-- JavaScript `String(v)` coercion of a possibly-`undefined` value. -/
def jsString (v : Option Json) : String :=
  match v with
  | none => "undefined"
  | some j => jsonToStr j

/-- The query parameters of a GET request to `/whatsapp` (lines 176-178 of
`server.js`): `hub.mode`, `hub.verify_token` and `hub.challenge`, each
possibly absent. -/
structure GetQuery where
  mode : Option String
  verify_token : Option String
  challenge : Option String

/-- An HTTP response as produced by the verification endpoint: a status code
and an optional explicit body (`res.sendStatus` sends only the default
status phrase, modelled as `none`). -/
structure HttpResponse where
  status : Nat
  body : Option String

/-- The GET `/whatsapp` verification handler (lines 172-192 of `server.js`):
`verifySecret` is the configured `WHATSAPP_VERIFY_TOKEN`. When
`hub.mode === 'subscribe'` and `hub.verify_token` strictly equals the
secret, it answers `res.status(200).send(challenge)`; otherwise
`res.sendStatus(403)`. -/
def whatsappGet (verifySecret : String) (q : GetQuery) : HttpResponse :=
  if q.mode = some "subscribe" ∧ q.verify_token = some verifySecret then
    { status := 200, body := q.challenge }
  else
    { status := 403, body := none }

/-- Outcome of the external Gemini call (`model.generateContent` followed by
`response.text()` at lines 67-74 of `server.js`), treated as an oracle:
either the whole call throws, or it succeeds with a text field that may be
absent (`none`) or any string (possibly empty). -/
inductive GeminiOutcome where
  | failure
  | success (texto : Option String)

/-- `generarRespuestaGemini` (lines 43-88 of `server.js`): sends the user's
text to Gemini and always returns a plain string. A thrown failure is caught
and replaced by the technical-difficulties apology; a falsy response text
(absent or empty) is replaced by the could-not-generate apology; otherwise
the generated text is returned verbatim. -/
def generarRespuestaGemini (outcome : GeminiOutcome) (textoUsuario : Option Json) : String :=
  match outcome with
  | .failure =>
      "Lo siento, tengo dificultades técnicas para procesar tu solicitud en este momento. Por favor, inténtalo de nuevo más tarde."
  | .success texto =>
      match texto with
      | none => "Lo siento, no pude generar una respuesta en este momento."
      | some t =>
          if t = "" then "Lo siento, no pude generar una respuesta en este momento."
          else t

/-- Line 108 of `server.js`: `req.body.entry?.[0]?.changes?.[0]`, assuming a
non-nullish body (the nullish-body throw is handled in `tryBlock`). -/
def getChanges (body : Json) : Option Json :=
  optIdx (optProp (optIdx (jsProp body "entry") 0) "changes") 0

/-- Line 110 of `server.js`: the guard
`changes && changes.field === 'messages' && changes.value && changes.value.messages`. -/
def changesGuard (changes : Option Json) : Bool :=
  truthy changes
    && isStr (optProp changes "field") "messages"
    && truthy (optProp changes "value")
    && truthy (optProp (optProp changes "value") "messages")

/-- Line 111 of `server.js`: `changes.value.messages[0]` (evaluated only
after `changesGuard` holds, so every base is truthy and no access throws). -/
def getMessage (changes : Option Json) : Option Json :=
  optIdx (optProp (optProp changes "value") "messages") 0

/-- Outcome of the `try` block at lines 107-144 of `server.js`:
`thrown` records an exception caught at line 140, together with the values
the variables `numeroRemitente` and `messageId` had when it was raised;
`earlyAck` is the `return res.sendStatus(200)` at line 137;
`fellThrough` carries the values of `textoUsuario`, `numeroRemitente` and
`messageId` when control reaches line 147. -/
inductive TryResult where
  | thrown (numeroRemitente messageId : Option Json)
  | earlyAck
  | fellThrough (textoUsuario numeroRemitente messageId : Option Json)

/-- The `try` block of the POST `/whatsapp` handler (lines 103-144 of
`server.js`). The variables start as empty strings (lines 103-105). A
nullish body makes `req.body.entry` throw; a nullish `messages[0]` makes
`message.from` throw; a nullish `message.text` makes `message.text.body`
throw. For a non-text message, `textoUsuario` becomes the template literal
naming the type (line 120). -/
def tryBlock (body : Json) : TryResult :=
  if isNull body then
    TryResult.thrown (some (Json.str "")) (some (Json.str ""))
  else if changesGuard (getChanges body) then
    if nullish (getMessage (getChanges body)) then
      TryResult.thrown (some (Json.str "")) (some (Json.str ""))
    else if isStr (optProp (getMessage (getChanges body)) "type") "text" then
      if nullish (optProp (getMessage (getChanges body)) "text") then
        TryResult.thrown (optProp (getMessage (getChanges body)) "from")
          (optProp (getMessage (getChanges body)) "id")
      else
        TryResult.fellThrough
          (optProp (optProp (getMessage (getChanges body)) "text") "body")
          (optProp (getMessage (getChanges body)) "from")
          (optProp (getMessage (getChanges body)) "id")
    else
      TryResult.fellThrough
        (some (Json.str ("El usuario envió un mensaje de tipo: "
          ++ jsString (optProp (getMessage (getChanges body)) "type") ++ ".")))
        (optProp (getMessage (getChanges body)) "from")
        (optProp (getMessage (getChanges body)) "id")
  else
    TryResult.earlyAck

/-- Observable outcome of one POST `/whatsapp` request: the HTTP status
sent, whether `generarRespuestaGemini` was invoked and with which argument,
the reply string it produced (only logged by the current code), and the
final values of `numeroRemitente` and `messageId`. -/
structure PostResult where
  status : Nat
  geminiCalled : Bool
  geminiInput : Option Json
  respuestaGemini : Option String
  numeroRemitente : Option Json
  messageId : Option Json

/-- The POST `/whatsapp` webhook handler (lines 94-166 of `server.js`),
with the external Gemini call abstracted by `outcome`. A caught exception
answers 200 (line 143); an irrelevant event answers 200 (line 137);
otherwise, when `textoUsuario` is truthy the handler awaits
`generarRespuestaGemini(textoUsuario)` and answers 200 (lines 150-160),
and when it is falsy it answers 200 without calling Gemini (line 164). -/
def whatsappPost (outcome : GeminiOutcome) (body : Json) : PostResult :=
  match tryBlock body with
  | .thrown nr mid =>
      { status := 200, geminiCalled := false, geminiInput := none,
        respuestaGemini := none, numeroRemitente := nr, messageId := mid }
  | .earlyAck =>
      { status := 200, geminiCalled := false, geminiInput := none,
        respuestaGemini := none, numeroRemitente := some (Json.str ""),
        messageId := some (Json.str "") }
  | .fellThrough texto nr mid =>
      if truthy texto then
        { status := 200, geminiCalled := true, geminiInput := texto,
          respuestaGemini := some (generarRespuestaGemini outcome texto),
          numeroRemitente := nr, messageId := mid }
      else
        { status := 200, geminiCalled := false, geminiInput := none,
          respuestaGemini := none, numeroRemitente := nr, messageId := mid }

/-- A well-formed inbound text message payload with body `"Hello"`, in the
Meta Cloud API webhook shape. -/
def helloPayload : Json :=
  Json.obj [("object", Json.str "whatsapp_business_account"),
    ("entry", Json.arr [Json.obj [("id", Json.str "102290129340398"),
      ("changes", Json.arr [Json.obj [
        ("value", Json.obj [
          ("messaging_product", Json.str "whatsapp"),
          ("messages", Json.arr [Json.obj [
            ("from", Json.str "16315551181"),
            ("id", Json.str "wamid.HBgLMTYzMTU1NTExODE"),
            ("type", Json.str "text"),
            ("text", Json.obj [("body", Json.str "Hello")])]])]),
        ("field", Json.str "messages")]])]])]

/-- An inbound payload whose first message has type `"image"` and no text
object. -/
def imagePayload : Json :=
  Json.obj [("object", Json.str "whatsapp_business_account"),
    ("entry", Json.arr [Json.obj [("id", Json.str "102290129340398"),
      ("changes", Json.arr [Json.obj [
        ("value", Json.obj [
          ("messaging_product", Json.str "whatsapp"),
          ("messages", Json.arr [Json.obj [
            ("from", Json.str "16315551181"),
            ("id", Json.str "wamid.HBgLMTYzMTU1NTExODI"),
            ("type", Json.str "image"),
            ("image", Json.obj [("id", Json.str "media-id-1")])]])]),
        ("field", Json.str "messages")]])]])]

/-- A status-update event: `entry[0].changes[0]` exists but its `field` is
`"statuses"`, and there is no `value.messages` array. -/
def statusUpdatePayload : Json :=
  Json.obj [("object", Json.str "whatsapp_business_account"),
    ("entry", Json.arr [Json.obj [("id", Json.str "102290129340398"),
      ("changes", Json.arr [Json.obj [
        ("value", Json.obj [
          ("messaging_product", Json.str "whatsapp"),
          ("statuses", Json.arr [Json.obj [("status", Json.str "delivered")]])]),
        ("field", Json.str "statuses")]])]])]

/-- A payload whose change has `field` `"statuses"` even though a complete
`value.messages` array is present under it. -/
def statusFieldWithMessagesPayload : Json :=
  Json.obj [("object", Json.str "whatsapp_business_account"),
    ("entry", Json.arr [Json.obj [("id", Json.str "102290129340398"),
      ("changes", Json.arr [Json.obj [
        ("value", Json.obj [
          ("messaging_product", Json.str "whatsapp"),
          ("messages", Json.arr [Json.obj [
            ("from", Json.str "16315551181"),
            ("id", Json.str "wamid.HBgLMTYzMTU1NTExODM"),
            ("type", Json.str "text"),
            ("text", Json.obj [("body", Json.str "hola")])]])]),
        ("field", Json.str "statuses")]])]])]

/-- A text message whose body is the empty string. -/
def emptyBodyPayload : Json :=
  Json.obj [("object", Json.str "whatsapp_business_account"),
    ("entry", Json.arr [Json.obj [("id", Json.str "102290129340398"),
      ("changes", Json.arr [Json.obj [
        ("value", Json.obj [
          ("messaging_product", Json.str "whatsapp"),
          ("messages", Json.arr [Json.obj [
            ("from", Json.str "16315551181"),
            ("id", Json.str "wamid.HBgLMTYzMTU1NTExODQ"),
            ("type", Json.str "text"),
            ("text", Json.obj [("body", Json.str "")])]])]),
        ("field", Json.str "messages")]])]])]

/-- A message tagged `type: "text"` that lacks the `text` object itself, so
`message.text.body` throws. -/
def textWithoutObjectPayload : Json :=
  Json.obj [("object", Json.str "whatsapp_business_account"),
    ("entry", Json.arr [Json.obj [("id", Json.str "102290129340398"),
      ("changes", Json.arr [Json.obj [
        ("value", Json.obj [
          ("messaging_product", Json.str "whatsapp"),
          ("messages", Json.arr [Json.obj [
            ("from", Json.str "16315551181"),
            ("id", Json.str "wamid.HBgLMTYzMTU1NTExODU"),
            ("type", Json.str "text")]])]),
        ("field", Json.str "messages")]])]])]

/-- A payload with the nested messages path absent entirely: `entry[0]` has
no `changes` key. -/
def noChangesPayload : Json :=
  Json.obj [("object", Json.str "whatsapp_business_account"),
    ("entry", Json.arr [Json.obj [("id", Json.str "102290129340398")]])]

/-- Member access through a nullish value yields nothing. -/
theorem optProp_eq_none_of_nullish (v : Option Json) (k : String)
    (h : nullish v = true) : optProp v k = none := by
  cases v with
  | none => rfl
  | some j => cases j <;> simp_all [nullish, optProp]

/-- If a property lookup through `v` produced a value, `v` was not nullish. -/
theorem nullish_eq_false_of_optProp_eq_some (v : Option Json) (k : String) (j : Json)
    (h : optProp v k = some j) : nullish v = false := by
  cases v with
  | none => simp [optProp] at h
  | some w => cases w <;> simp_all [optProp, nullish]

/-- The placeholder built for a non-text message is never the empty string. -/
theorem placeholder_ne_empty (s : String) :
    ("El usuario envió un mensaje de tipo: " ++ s ++ ".") ≠ "" := by
  intro h
  have hl : ("El usuario envió un mensaje de tipo: " ++ s ++ ".").length = 0 := by
    rw [h]
    rfl
  rw [String.length_append, String.length_append] at hl
  have hdot : (".").length = 1 := rfl
  rw [hdot] at hl
  omega

/-- Claim C1: a GET to the verification endpoint answers 200 with the
supplied `hub.challenge` as body exactly when `hub.mode` is `"subscribe"`
and `hub.verify_token` equals the configured secret; in every other case it
answers 403. -/
theorem get_verification_handshake (secret : String) (q : GetQuery) :
    (((whatsappGet secret q).status = 200 ∧ (whatsappGet secret q).body = q.challenge)
        ↔ (q.mode = some "subscribe" ∧ q.verify_token = some secret))
      ∧ (¬(q.mode = some "subscribe" ∧ q.verify_token = some secret) →
          (whatsappGet secret q).status = 403) := by
  by_cases h : q.mode = some "subscribe" ∧ q.verify_token = some secret
  · simp [whatsappGet, h]
  · simp [whatsappGet, h]

/-- Concrete instance of the verification handshake: a mismatched token is
answered 403, and a matching subscribe request echoes the challenge. -/
theorem get_verification_handshake_witness :
    (whatsappGet "miTokenSecreto" ⟨some "subscribe", some "otroToken", some "1158201444"⟩).status
      = 403 :=
  (get_verification_handshake "miTokenSecreto"
    ⟨some "subscribe", some "otroToken", some "1158201444"⟩).2 (by decide)

/-- Claim C3: every POST to the webhook, whatever the payload and whatever
the processing outcome (including a caught exception during payload
navigation), is answered with status 200. -/
theorem post_always_acks_200 (outcome : GeminiOutcome) (body : Json) :
    (whatsappPost outcome body).status = 200 := by
  unfold whatsappPost
  rcases tryBlock body with ⟨nr, mid⟩ | _ | ⟨texto, nr, mid⟩
  · rfl
  · rfl
  · cases h : truthy texto <;> simp [h]

/-- Claim C4: when the external generation call fails, the response
generator returns the fixed technical-difficulties apology; by its result
type it always yields a string, never a fault. -/
theorem gemini_failure_yields_apology (textoUsuario : Option Json) :
    generarRespuestaGemini GeminiOutcome.failure textoUsuario =
      "Lo siento, tengo dificultades técnicas para procesar tu solicitud en este momento. Por favor, inténtalo de nuevo más tarde." :=
  rfl

/-- Claim C7: a successful generation call whose text field is absent or
empty makes the generator return the fixed could-not-generate apology. -/
theorem gemini_no_text_yields_fallback (textoUsuario : Option Json) :
    generarRespuestaGemini (GeminiOutcome.success none) textoUsuario
        = "Lo siento, no pude generar una respuesta en este momento." ∧
      generarRespuestaGemini (GeminiOutcome.success (some "")) textoUsuario
        = "Lo siento, no pude generar una respuesta en este momento." :=
  ⟨rfl, by simp [generarRespuestaGemini]⟩

/-- Claim C5: for a payload whose messages-field change carries a text
message with body `"Hello"`, the handler extracts the sender id, the message
id and the user text `"Hello"`, invokes the generator with exactly that
text, and answers 200. -/
theorem post_hello_extracts_and_calls_gemini (outcome : GeminiOutcome) (body : Json)
    (h1 : isNull body = false)
    (h2 : changesGuard (getChanges body) = true)
    (h3 : nullish (getMessage (getChanges body)) = false)
    (h4 : isStr (optProp (getMessage (getChanges body)) "type") "text" = true)
    (h5 : optProp (optProp (getMessage (getChanges body)) "text") "body"
            = some (Json.str "Hello")) :
    (whatsappPost outcome body).status = 200 ∧
      (whatsappPost outcome body).geminiCalled = true ∧
      (whatsappPost outcome body).geminiInput = some (Json.str "Hello") ∧
      (whatsappPost outcome body).numeroRemitente
          = optProp (getMessage (getChanges body)) "from" ∧
      (whatsappPost outcome body).messageId
          = optProp (getMessage (getChanges body)) "id" := by
  have htext : nullish (optProp (getMessage (getChanges body)) "text") = false :=
    nullish_eq_false_of_optProp_eq_some _ _ _ h5
  have htb : tryBlock body
      = TryResult.fellThrough (some (Json.str "Hello"))
          (optProp (getMessage (getChanges body)) "from")
          (optProp (getMessage (getChanges body)) "id") := by
    simp [tryBlock, h1, h2, h3, h4, htext, h5]
  have htr : truthy (some (Json.str "Hello")) = true := rfl
  simp [whatsappPost, htb, htr]

/-- Concrete instance of C5 at `helloPayload`. -/
theorem post_hello_witness :
    (whatsappPost (GeminiOutcome.success (some "Claro, ¿cómo puedo ayudarte?")) helloPayload).status = 200 ∧
      (whatsappPost (GeminiOutcome.success (some "Claro, ¿cómo puedo ayudarte?")) helloPayload).geminiCalled = true ∧
      (whatsappPost (GeminiOutcome.success (some "Claro, ¿cómo puedo ayudarte?")) helloPayload).geminiInput
          = some (Json.str "Hello") ∧
      (whatsappPost (GeminiOutcome.success (some "Claro, ¿cómo puedo ayudarte?")) helloPayload).numeroRemitente
          = optProp (getMessage (getChanges helloPayload)) "from" ∧
      (whatsappPost (GeminiOutcome.success (some "Claro, ¿cómo puedo ayudarte?")) helloPayload).messageId
          = optProp (getMessage (getChanges helloPayload)) "id" :=
  post_hello_extracts_and_calls_gemini (GeminiOutcome.success (some "Claro, ¿cómo puedo ayudarte?"))
    helloPayload rfl rfl rfl rfl rfl

/-- Claim C2 counterexample: on a payload carrying an image message, the
handler does invoke the response generator — with the synthesized
placeholder — and generated text is produced, contradicting the claim that
the generator is not invoked and nothing is generated. -/
theorem post_image_invokes_gemini_counterexample :
    (whatsappPost (GeminiOutcome.success (some "Solo proceso texto.")) imagePayload).geminiCalled = true ∧
      (whatsappPost (GeminiOutcome.success (some "Solo proceso texto.")) imagePayload).geminiInput
          = some (Json.str "El usuario envió un mensaje de tipo: image.") ∧
      (whatsappPost (GeminiOutcome.success (some "Solo proceso texto.")) imagePayload).respuestaGemini
          = some "Solo proceso texto." ∧
      (whatsappPost (GeminiOutcome.success (some "Solo proceso texto.")) imagePayload).status = 200 :=
  ⟨rfl, rfl, rfl, rfl⟩

/-- Claim C2 (amended): for every payload whose first message has a type tag
other than `"text"`, the handler synthesizes the placeholder naming that
type, invokes the response generator with exactly the placeholder (so its
output is produced), and answers 200. -/
theorem post_nontext_placeholder_invokes_gemini (outcome : GeminiOutcome) (body : Json)
    (h1 : isNull body = false)
    (h2 : changesGuard (getChanges body) = true)
    (h3 : nullish (getMessage (getChanges body)) = false)
    (h4 : isStr (optProp (getMessage (getChanges body)) "type") "text" = false) :
    (whatsappPost outcome body).status = 200 ∧
      (whatsappPost outcome body).geminiCalled = true ∧
      (whatsappPost outcome body).geminiInput
          = some (Json.str ("El usuario envió un mensaje de tipo: "
              ++ jsString (optProp (getMessage (getChanges body)) "type") ++ ".")) ∧
      (whatsappPost outcome body).respuestaGemini
          = some (generarRespuestaGemini outcome
              (some (Json.str ("El usuario envió un mensaje de tipo: "
                ++ jsString (optProp (getMessage (getChanges body)) "type") ++ ".")))) := by
  have htb : tryBlock body
      = TryResult.fellThrough
          (some (Json.str ("El usuario envió un mensaje de tipo: "
            ++ jsString (optProp (getMessage (getChanges body)) "type") ++ ".")))
          (optProp (getMessage (getChanges body)) "from")
          (optProp (getMessage (getChanges body)) "id") := by
    simp [tryBlock, h1, h2, h3, h4]
  have htr : truthy (some (Json.str ("El usuario envió un mensaje de tipo: "
      ++ jsString (optProp (getMessage (getChanges body)) "type") ++ "."))) = true := by
    simp only [truthy, ne_eq, decide_eq_true_eq]
    exact placeholder_ne_empty _
  simp [whatsappPost, htb, htr]

/-- Concrete instance of the amended C2 at `imagePayload`, with a failing
generation call. -/
theorem post_nontext_placeholder_witness :
    (whatsappPost GeminiOutcome.failure imagePayload).status = 200 ∧
      (whatsappPost GeminiOutcome.failure imagePayload).geminiCalled = true ∧
      (whatsappPost GeminiOutcome.failure imagePayload).geminiInput
          = some (Json.str ("El usuario envió un mensaje de tipo: "
              ++ jsString (optProp (getMessage (getChanges imagePayload)) "type") ++ ".")) ∧
      (whatsappPost GeminiOutcome.failure imagePayload).respuestaGemini
          = some (generarRespuestaGemini GeminiOutcome.failure
              (some (Json.str ("El usuario envió un mensaje de tipo: "
                ++ jsString (optProp (getMessage (getChanges imagePayload)) "type") ++ ".")))) :=
  post_nontext_placeholder_invokes_gemini GeminiOutcome.failure imagePayload rfl rfl rfl rfl

/-- Claim C6: when any segment of the nested path
`entry → changes → value → messages` is absent, the handler answers 200
without invoking the generator (the guard at line 110 fails and the handler
takes the `return res.sendStatus(200)` branch at line 137). -/
theorem post_missing_path_acks_without_gemini (outcome : GeminiOutcome) (body : Json)
    (h : getChanges body = none
        ∨ optProp (getChanges body) "value" = none
        ∨ optProp (optProp (getChanges body) "value") "messages" = none) :
    (whatsappPost outcome body).status = 200 ∧
      (whatsappPost outcome body).geminiCalled = false := by
  have hguard : changesGuard (getChanges body) = false := by
    unfold changesGuard
    rcases h with h | h | h
    · simp [h, truthy]
    · simp [h, truthy]
    · simp [h, truthy]
  by_cases hb : isNull body = true
  · simp [whatsappPost, tryBlock, hb]
  · rw [Bool.not_eq_true] at hb
    simp [whatsappPost, tryBlock, hb, hguard]

/-- Concrete instance of C6: a payload whose first entry has no `changes`
key is acknowledged without a generator call. -/
theorem post_missing_path_witness :
    (whatsappPost GeminiOutcome.failure noChangesPayload).status = 200 ∧
      (whatsappPost GeminiOutcome.failure noChangesPayload).geminiCalled = false :=
  post_missing_path_acks_without_gemini GeminiOutcome.failure noChangesPayload (Or.inl rfl)

/-- Claim C8: when `entry[0].changes[0]` exists but its `field` tag differs
from `"messages"`, the handler answers 200 and never invokes the generator,
even if a `value.messages` array is present under that change. -/
theorem post_non_messages_field_acks (outcome : GeminiOutcome) (body : Json)
    (hchanges : truthy (getChanges body) = true)
    (hfield : isStr (optProp (getChanges body) "field") "messages" = false) :
    (whatsappPost outcome body).status = 200 ∧
      (whatsappPost outcome body).geminiCalled = false := by
  have hguard : changesGuard (getChanges body) = false := by
    unfold changesGuard
    simp [hfield]
  by_cases hb : isNull body = true
  · simp [whatsappPost, tryBlock, hb]
  · rw [Bool.not_eq_true] at hb
    simp [whatsappPost, tryBlock, hb, hguard]

/-- Concrete instance of C8: a `statuses`-field change that nevertheless
carries a complete `value.messages` array is acknowledged without a
generator call. -/
theorem post_non_messages_field_witness :
    (whatsappPost GeminiOutcome.failure statusFieldWithMessagesPayload).status = 200 ∧
      (whatsappPost GeminiOutcome.failure statusFieldWithMessagesPayload).geminiCalled = false :=
  post_non_messages_field_acks GeminiOutcome.failure statusFieldWithMessagesPayload rfl rfl

/-- Claim C9: a text message whose body is the empty string leaves
`textoUsuario` falsy, so the generator is not invoked and the handler
answers 200 through the else branch at line 164. -/
theorem post_empty_text_body_acks (outcome : GeminiOutcome) (body : Json)
    (h1 : isNull body = false)
    (h2 : changesGuard (getChanges body) = true)
    (h3 : nullish (getMessage (getChanges body)) = false)
    (h4 : isStr (optProp (getMessage (getChanges body)) "type") "text" = true)
    (h5 : optProp (optProp (getMessage (getChanges body)) "text") "body"
            = some (Json.str "")) :
    (whatsappPost outcome body).status = 200 ∧
      (whatsappPost outcome body).geminiCalled = false := by
  have htext : nullish (optProp (getMessage (getChanges body)) "text") = false :=
    nullish_eq_false_of_optProp_eq_some _ _ _ h5
  have htb : tryBlock body
      = TryResult.fellThrough (some (Json.str ""))
          (optProp (getMessage (getChanges body)) "from")
          (optProp (getMessage (getChanges body)) "id") := by
    simp [tryBlock, h1, h2, h3, h4, htext, h5]
  have htr : truthy (some (Json.str "")) = false := rfl
  simp [whatsappPost, htb, htr]

/-- Concrete instance of C9 at `emptyBodyPayload`. -/
theorem post_empty_text_body_witness :
    (whatsappPost GeminiOutcome.failure emptyBodyPayload).status = 200 ∧
      (whatsappPost GeminiOutcome.failure emptyBodyPayload).geminiCalled = false :=
  post_empty_text_body_acks GeminiOutcome.failure emptyBodyPayload rfl rfl rfl rfl rfl

/-- Claim C10: a message tagged `type: "text"` without a `text` object makes
`message.text.body` throw; the exception is caught (the try block ends in
`thrown`), the handler answers 200 and the generator is not invoked. -/
theorem post_text_without_object_throws_and_acks (outcome : GeminiOutcome) (body : Json)
    (h1 : isNull body = false)
    (h2 : changesGuard (getChanges body) = true)
    (h3 : nullish (getMessage (getChanges body)) = false)
    (h4 : isStr (optProp (getMessage (getChanges body)) "type") "text" = true)
    (h5 : nullish (optProp (getMessage (getChanges body)) "text") = true) :
    tryBlock body
        = TryResult.thrown (optProp (getMessage (getChanges body)) "from")
            (optProp (getMessage (getChanges body)) "id") ∧
      (whatsappPost outcome body).status = 200 ∧
      (whatsappPost outcome body).geminiCalled = false := by
  have htb : tryBlock body
      = TryResult.thrown (optProp (getMessage (getChanges body)) "from")
          (optProp (getMessage (getChanges body)) "id") := by
    simp [tryBlock, h1, h2, h3, h4, h5]
  exact ⟨htb, by simp [whatsappPost, htb]⟩

/-- Concrete instance of C10 at `textWithoutObjectPayload`. -/
theorem post_text_without_object_witness :
    tryBlock textWithoutObjectPayload
        = TryResult.thrown (optProp (getMessage (getChanges textWithoutObjectPayload)) "from")
            (optProp (getMessage (getChanges textWithoutObjectPayload)) "id") ∧
      (whatsappPost GeminiOutcome.failure textWithoutObjectPayload).status = 200 ∧
      (whatsappPost GeminiOutcome.failure textWithoutObjectPayload).geminiCalled = false :=
  post_text_without_object_throws_and_acks GeminiOutcome.failure textWithoutObjectPayload
    rfl rfl rfl rfl rfl
